import Mathlib

/-!
Formal model of the SCO Digital Assistant voice backend (TypeScript sources:
the realtime client, the voice tool registry and dispatch in the realtime
module, and the payments service).  Database rows are modelled as lists of
records, Prisma queries as list operations, timestamps as integers, and
JavaScript numbers used for prices and retrieval scores as rationals.
External collaborators (Stripe, Twilio SMS, Slack, the knowledge retrieval
call, JSON parse and stringify) are modelled as explicit outcome parameters,
so every definition below is a total function of its inputs.
-/

/-- JavaScript string-or to a default: a || b where a is a possibly absent
string and empty strings are falsy. -/
def jsOr (a : Option String) (d : String) : String :=
  match a with
  | none => d
  | some s => if s = "" then d else s

/-- JavaScript a || b on two possibly absent strings (empty string is falsy). -/
def jsOrOpt (a b : Option String) : Option String :=
  match a with
  | none => b
  | some s => if s = "" then b else some s

/-- JavaScript truthiness of a possibly absent string. -/
def jsStrTruthy : Option String → Bool
  | none => false
  | some s => !(s == "")

/-- Character-list prefix test, used to model the Prisma contains filter. -/
def startsWithChars : List Char → List Char → Bool
  | _, [] => true
  | [], _ :: _ => false
  | h :: t, p :: ps => (h = p) && startsWithChars t ps

/-- Substring containment on character lists (Prisma contains semantics,
case sensitive). -/
def containsSub (hay pat : List Char) : Bool :=
  match hay with
  | [] => pat.isEmpty
  | _ :: t => startsWithChars hay pat || containsSub t pat

/-- One row of the Event table (prisma schema: name, date, location, prices
per tier, capacity and sold counters per tier, active flag). -/
structure Event where
  id : String
  name : String
  date : Int
  location : String
  address : Option String
  gaPriceOnline : ℚ
  gaPriceGate : ℚ
  vipPriceOnline : ℚ
  vipPriceGate : ℚ
  gaCapacity : Int
  vipCapacity : Int
  gaSold : Int
  vipSold : Int
  active : Bool
  deriving DecidableEq, Repr

/-- Ordering used by the Prisma orderBy date asc clauses. -/
def dateLE (a b : Event) : Prop := a.date ≤ b.date

instance : DecidableRel dateLE := fun a b => Int.decLe a.date b.date

instance : IsTotal Event dateLE := ⟨fun a b => Int.le_total a.date b.date⟩

instance : IsTrans Event dateLE := ⟨fun _ _ _ h1 h2 => le_trans h1 h2⟩

/-- Model of orderBy date asc on an event query result. -/
def sortByDate (es : List Event) : List Event := List.insertionSort dateLE es

/-- Prisma where-clause of getEventInfo: active, date gte now, and an
optional name contains filter that is skipped when eventName is absent or
empty (JS truthiness of the spread condition). -/
def upcomingFilter (now : Int) (eventName : Option String) (e : Event) : Bool :=
  e.active && decide (now ≤ e.date) &&
    (match eventName with
     | none => true
     | some n => if n = "" then true else containsSub e.name.toList n.toList)

/-- findFirst with active, date gte now, orderBy date asc (used by
getTicketPrices and purchaseTickets to resolve the next event). -/
def firstUpcoming (db : List Event) (now : Int) : Option Event :=
  (sortByDate (db.filter (fun e => e.active && decide (now ≤ e.date)))).head?

/-- The per-event projection getEventInfo builds for its reply (locale date
formatting and dollar-string building are presentation and are kept as the
raw numeric fields here). -/
structure EventSummary where
  name : String
  date : Int
  location : String
  address : Option String
  gaPriceOnline : ℚ
  gaPriceGate : ℚ
  vipPriceOnline : ℚ
  vipPriceGate : ℚ
  gaAvailable : Int
  vipAvailable : Int
  deriving DecidableEq, Repr

/-- Projection of an event row to the reply entry, with
gaAvailable = gaCapacity - gaSold and vipAvailable = vipCapacity - vipSold. -/
def summarize (e : Event) : EventSummary :=
  ⟨e.name, e.date, e.location, e.address,
   e.gaPriceOnline, e.gaPriceGate, e.vipPriceOnline, e.vipPriceGate,
   e.gaCapacity - e.gaSold, e.vipCapacity - e.vipSold⟩

/-- Result shape of the getEventInfo tool. -/
structure GetEventInfoRes where
  ok : Bool
  message : Option String
  events : List EventSummary
  nextEvent : Option EventSummary
  deriving DecidableEq, Repr

/-- The rows selected by the getEventInfo query: filter, orderBy date asc,
take 3. -/
def upcomingSelection (db : List Event) (now : Int) (eventName : Option String) :
    List Event :=
  (sortByDate (db.filter (upcomingFilter now eventName))).take 3

/-- tools.getEventInfo: query up to three active future events (optionally
name filtered), and answer ok false with the fixed message when the query is
empty, else ok true with the mapped list and its head as nextEvent. -/
def getEventInfo (db : List Event) (now : Int) (eventName : Option String) :
    GetEventInfoRes :=
  let events := upcomingSelection db now eventName
  if events.length = 0 then
    ⟨false, some "No upcoming events found", [], none⟩
  else
    ⟨true, none, events.map summarize, (events.map summarize).head?⟩

/-- Result of payments.getTicketPrices (null when no event resolves). -/
structure TicketPrices where
  event : Event
  gaOnline : ℚ
  gaGate : ℚ
  vipOnline : ℚ
  vipGate : ℚ
  gaAvailable : Int
  vipAvailable : Int
  deriving DecidableEq, Repr

/-- Event resolution of getTicketPrices: findUnique by id when a non-empty
id is given (JS truthiness of the ternary condition), else findFirst of the
active future events ordered by date. -/
def pricingEvent (db : List Event) (now : Int) (eventId : Option String) :
    Option Event :=
  match eventId with
  | some id => if id = "" then firstUpcoming db now else db.find? (fun e => e.id = id)
  | none => firstUpcoming db now

/-- payments.getTicketPrices: resolve the event, then report prices and the
plain difference capacity - sold per tier as availability. -/
def getTicketPrices (db : List Event) (now : Int) (eventId : Option String) :
    Option TicketPrices :=
  match pricingEvent db now eventId with
  | none => none
  | some e =>
      some ⟨e, e.gaPriceOnline, e.gaPriceGate, e.vipPriceOnline, e.vipPriceGate,
            e.gaCapacity - e.gaSold, e.vipCapacity - e.vipSold⟩

/-- Result shape of the getTicketPricing tool (availability fields only kept
as numbers; the includes strings are constants in the source). -/
structure PricingToolRes where
  ok : Bool
  message : Option String
  gaAvailable : Option Int
  vipAvailable : Option Int
  deriving DecidableEq, Repr

/-- tools.getTicketPricing: wraps getTicketPrices, answering ok false with
the fixed message when it is null, else passing the availability through. -/
def getTicketPricing (db : List Event) (now : Int) (eventId : Option String) :
    PricingToolRes :=
  match getTicketPrices db now eventId with
  | none => ⟨false, some "No events available for ticket purchase", none, none⟩
  | some p => ⟨true, none, some p.gaAvailable, some p.vipAvailable⟩

/-- Ticket tier. -/
inductive TicketType where
  | GA
  | VIP
  deriving DecidableEq, Repr

/-- String form used in error messages. -/
def ticketTypeStr : TicketType → String
  | .GA => "GA"
  | .VIP => "VIP"

/-- Result shape shared by the two payment entry points. -/
structure PaymentResult where
  success : Bool
  confirmationCode : Option String
  error : Option String
  deriving DecidableEq, Repr

/-- Outcome of the external Stripe calls inside a payment attempt: the
confirmed intent status is succeeded, some other status, or the API threw
(carrying an error message that may be absent or empty). -/
inductive StripeOutcome where
  | succeeded
  | otherStatus
  | thrown (message : Option String)
  deriving DecidableEq, Repr

/-- payments.createTicketPaymentIntent (web checkout path): resolves the
event, rejects inactive events, rejects a quantity exceeding
capacity - sold with the remaining-count message, then creates the intent
and a pending purchase row.  It never increments the sold counters (the
webhook does that later).  The price computation feeds only the Stripe call
and the stored row, so it is dropped here. -/
def createTicketPaymentIntent (db : List Event) (eventId : String) (tt : TicketType)
    (quantity : Int) (confirmationCode : String) (stripe : StripeOutcome) :
    PaymentResult :=
  match db.find? (fun e => e.id = eventId) with
  | none => ⟨false, none, some "Event not found"⟩
  | some event =>
    if event.active = false then
      ⟨false, none, some "Event is not available for ticket sales"⟩
    else
      let sold := match tt with | .VIP => event.vipSold | .GA => event.gaSold
      let capacity := match tt with | .VIP => event.vipCapacity | .GA => event.gaCapacity
      if capacity < sold + quantity then
        ⟨false, none,
         some ("Only " ++ toString (capacity - sold) ++ " " ++ ticketTypeStr tt
               ++ " tickets remaining")⟩
      else
        match stripe with
        | .thrown m => ⟨false, none, some (jsOr m "Payment processing failed")⟩
        | _ => ⟨true, some confirmationCode, none⟩

/-- Sold-counter update performed by prisma event.update with increment. -/
def incrementSold (tt : TicketType) (quantity : Int) (e : Event) : Event :=
  match tt with
  | .VIP => { e with vipSold := e.vipSold + quantity }
  | .GA => { e with gaSold := e.gaSold + quantity }

/-- payments.processVoicePayment (voice purchase path): resolves the event,
charges the card through Stripe, and on a succeeded intent records the
purchase and increments the sold counter of the tier by the quantity.
It contains no availability check and no check of the active flag; the sold
counter is incremented unconditionally on payment success.  The confirmation
code (a uuid in the source) and the Stripe outcome are parameters; card
fields and price arithmetic feed only the Stripe call and the stored row. -/
def processVoicePayment (db : List Event) (eventId : String) (tt : TicketType)
    (quantity : Int) (confirmationCode : String) (stripe : StripeOutcome) :
    PaymentResult × List Event :=
  match db.find? (fun e => e.id = eventId) with
  | none => (⟨false, none, some "Event not found"⟩, db)
  | some _ =>
    match stripe with
    | .thrown m => (⟨false, none, some (jsOr m "Payment declined")⟩, db)
    | .otherStatus => (⟨false, none, some "Payment requires additional action"⟩, db)
    | .succeeded =>
        (⟨true, some confirmationCode, none⟩,
         db.map (fun e => if e.id = eventId then incrementSold tt quantity e else e))

/-- One scored retrieval candidate as consumed by tools.answerQuestion
(source identifier plus similarity score). -/
structure KBSource where
  source : String
  score : ℚ
  deriving DecidableEq, Repr

/-- Result of the external askKB retrieval call: passage context and the
ranked source list. -/
structure KBResult where
  context : String
  sources : List KBSource
  deriving DecidableEq, Repr

/-- BusinessConfig row (prisma findFirst result when a row exists). -/
structure BusinessConfig where
  kbMinConfidence : ℚ
  lowConfidenceAction : String
  deriving DecidableEq, Repr

/-- Effective confidence threshold: the config value, defaulting to 0.55
when no BusinessConfig row exists. -/
def cfgMinConfidence (cfg : Option BusinessConfig) : ℚ :=
  (cfg.map (·.kbMinConfidence)).getD 0.55

/-- Effective gating action string, defaulting to ask_clarify. -/
def cfgLowAction (cfg : Option BusinessConfig) : String :=
  (cfg.map (·.lowConfidenceAction)).getD "ask_clarify"

/-- Action tags carried by gated answers. -/
inductive GateAction where
  | CLARIFY
  | TRANSFER
  | VOICEMAIL
  deriving DecidableEq, Repr

/-- Result shape of tools.answerQuestion.  The source key partialContext is
written partialCtx here; context is the asserted-answer field spread from
the retrieval result on the confident branch only. -/
structure AnswerResult where
  ok : Bool
  lowConfidence : Bool
  action : Option GateAction
  message : Option String
  partialCtx : Option String
  context : Option String
  sources : List KBSource
  confidenceOk : Bool
  topConfidence : Option ℚ
  deriving DecidableEq, Repr

/-- Gating action selected from the configured string: transfer and
voicemail are recognized, anything else falls to the ask_clarify branch. -/
def gateActionFor (s : String) : GateAction :=
  if s = "transfer" then .TRANSFER
  else if s = "voicemail" then .VOICEMAIL
  else .CLARIFY

/-- tools.answerQuestion: the retrieval result and the optional
BusinessConfig row are parameters (the retrieval service and the citation
audit log write, which does not affect the returned value, are external).
Top confidence is the score of the first source, defaulting to 0 for an
empty list; strictly below the threshold the configured gating action is
returned with ok false, otherwise the passage, sources and the
confidence-approved flag. -/
def answerQuestion (cfg : Option BusinessConfig) (res : KBResult) : AnswerResult :=
  let minConfidence := cfgMinConfidence cfg
  let lowConfidenceAction := cfgLowAction cfg
  let topConfidence := ((res.sources.head?).map (·.score)).getD 0
  if topConfidence < minConfidence then
    if lowConfidenceAction = "transfer" then
      ⟨false, true, some .TRANSFER,
       some "I'm not confident I have the right information for that question. Let me transfer you to someone who can help better.",
       none, none, [], false, none⟩
    else if lowConfidenceAction = "voicemail" then
      ⟨false, true, some .VOICEMAIL,
       some "I'm not sure I have the right answer for that. Would you like to leave a message and we'll get back to you with the correct information?",
       none, none, [], false, none⟩
    else
      ⟨false, true, some .CLARIFY,
       some "I'm not entirely sure about that. Could you rephrase your question or ask about something more specific like event dates, ticket prices, or sponsorship opportunities?",
       some res.context, none, res.sources, false, none⟩
  else
    ⟨true, false, none, none, none, some res.context, res.sources, true,
     some topConfidence⟩

/-- Minimal JSON value model for the realtime client boundary. -/
inductive Json where
  | null
  | bool (b : Bool)
  | num (q : ℚ)
  | str (s : String)
  | arr (elems : List Json)
  | obj (fields : List (String × Json))

/-- JavaScript truthiness of a JSON value. -/
def jsTruthyJson : Json → Bool
  | .null => false
  | .bool b => b
  | .num q => decide (q ≠ 0)
  | .str s => !(s == "")
  | .arr _ => true
  | .obj _ => true

/-- safeParseJson: an absent or empty string yields the empty object; a
parse failure (the external JSON.parse is the parameter) also yields the
empty object instead of throwing. -/
def safeParseJson (parse : String → Option Json) (s : Option String) : Json :=
  match s with
  | none => Json.obj []
  | some str => if str = "" then Json.obj [] else (parse str).getD (Json.obj [])

/-- The function/tool call event shape received from the model service. -/
structure ToolCallEvent where
  id : Option String
  name : Option String
  tool_name : Option String
  arguments : Option (Sum String Json)
  tool_call_id : Option String

/-- Argument resolution in the client: a string payload goes through
safeParseJson, a non-string payload is taken as is when truthy, else the
empty object. -/
def resolveArgs (parse : String → Option Json) (args : Option (Sum String Json)) :
    Json :=
  match args with
  | some (Sum.inl s) => safeParseJson parse (some s)
  | some (Sum.inr j) => if jsTruthyJson j then j else Json.obj []
  | none => Json.obj []

/-- A thrown JavaScript error as observed by a catch: its message property
(possibly absent) and its String conversion. -/
structure JsError where
  message : Option String
  asString : String

/-- The text a catch block extracts: message when truthy, else String(e). -/
def jsErrMsg (e : JsError) : String := jsOr e.message e.asString

/-- The ok false error object built for a failed tool invocation. -/
def jsonErr (msg : String) : Json :=
  Json.obj [("ok", Json.bool false), ("error", Json.str msg)]

/-- The output object computed by the client for one tool call: default is
the Unhandled tool error, the onToolCall handler (receiving the call with
its resolved arguments) overrides it, and a throw from the handler is
caught and converted to the ok false error object. -/
def clientToolOutput (handler : Option (ToolCallEvent → Json → Except JsError Json))
    (parse : String → Option Json) (call : ToolCallEvent) : Json :=
  let args := resolveArgs parse call.arguments
  let name := jsOrOpt call.name call.tool_name
  match handler with
  | none => jsonErr ("Unhandled tool " ++ name.getD "undefined")
  | some h =>
      match h call args with
      | .ok v => v
      | .error e => jsonErr (jsErrMsg e)

/-- Wire messages the client sends to the model service (session.update
payload details are not needed by any claim). -/
inductive RealtimeMsg where
  | sessionUpdate
  | inputAudioAppend (audio : String)
  | inputAudioCommit
  | responseCreate (modalities : List String)
  | toolOutput (tool_call_id : Option String) (output : String)
  deriving DecidableEq, Repr

/-- WebSocket readyState OPEN. -/
def wsOPEN : Nat := 1

/-- WebSocket readyState CLOSING (state after calling close on a socket). -/
def wsCLOSING : Nat := 2

/-- State of the OpenAIRealtimeClient relevant to the claims: the connected
flag, the pending byte counter, and the readyState of the underlying
WebSocket (none when no socket was created).  The heartbeat timer is
time-driven and not modelled. -/
structure RTClientState where
  connected : Bool
  pendingBytes : Nat
  ws : Option Nat
  deriving DecidableEq, Repr

/-- The private send method: the message goes out only when a socket exists
and its readyState is OPEN; otherwise the call returns with no effect and
no error. -/
def rtSend (st : RTClientState) (msg : RealtimeMsg) : List RealtimeMsg :=
  match st.ws with
  | none => []
  | some rs => if rs = wsOPEN then [msg] else []

/-- close: stops the heartbeat, closes the socket when present (moving its
readyState off OPEN), and clears the connected flag; idempotent. -/
def closeClient (st : RTClientState) : RTClientState :=
  { st with connected := false, ws := st.ws.map (fun _ => wsCLOSING) }

/-- The single reply message handleToolCall builds for one tool call event,
tagged with tool_call_id falling back to id, carrying the JSON-serialized
output (the external JSON.stringify is the parameter). -/
def clientHandleToolCall (parse : String → Option Json) (stringify : Json → String)
    (handler : Option (ToolCallEvent → Json → Except JsError Json))
    (call : ToolCallEvent) : RealtimeMsg :=
  RealtimeMsg.toolOutput (jsOrOpt call.tool_call_id call.id)
    (stringify (clientToolOutput handler parse call))

/-- The messages actually emitted for one tool call event: the one reply,
passed through send (so it is discarded on a non-open socket). -/
def clientHandleToolCallEmit (st : RTClientState) (parse : String → Option Json)
    (stringify : Json → String)
    (handler : Option (ToolCallEvent → Json → Except JsError Json))
    (call : ToolCallEvent) : List RealtimeMsg :=
  rtSend st (clientHandleToolCall parse stringify handler call)

/-- Node Buffer.byteLength of a base64 string: up to two trailing padding
characters are dropped, then the decoded length is 3/4 of the remaining
character count, rounded down. -/
def base64ByteLength (s : String) : Nat :=
  let cs := s.toList
  let b1 := if cs.getLast? = some '=' then cs.length - 1 else cs.length
  let b2 := if 1 < b1 ∧ cs.getD (b1 - 1) ' ' = '=' then b1 - 1 else b1
  (b2 * 3) / 4

/-- appendAudioBase64: ignored when not connected; otherwise the pending
byte counter grows by the decoded byte length of the chunk and the append
message is sent. -/
def appendAudioBase64 (st : RTClientState) (b64 : String) :
    RTClientState × List RealtimeMsg :=
  if st.connected = false then (st, [])
  else
    let st2 := { st with pendingBytes := st.pendingBytes + base64ByteLength b64 }
    (st2, rtSend st2 (RealtimeMsg.inputAudioAppend b64))

/-- commitAndRespond: ignored when not connected; otherwise sends the commit
then the response.create message and resets the pending byte counter. -/
def commitAndRespond (st : RTClientState) (modalities : List String) :
    RTClientState × List RealtimeMsg :=
  if st.connected = false then (st, [])
  else
    ({ st with pendingBytes := 0 },
     rtSend st RealtimeMsg.inputAudioCommit
       ++ rtSend st (RealtimeMsg.responseCreate modalities))

/-- maybeAutoFlush: commits and requests a response exactly when the pending
byte counter has reached the threshold (the source default is 32000). -/
def maybeAutoFlush (st : RTClientState) (thresholdBytes : Nat) :
    RTClientState × List RealtimeMsg :=
  if thresholdBytes ≤ st.pendingBytes then commitAndRespond st ["text", "audio"]
  else (st, [])

/-- A sequence of appendAudioBase64 calls, collecting the emitted messages. -/
def appendMany (st : RTClientState) (chunks : List String) :
    RTClientState × List RealtimeMsg :=
  match chunks with
  | [] => (st, [])
  | c :: rest =>
      let p1 := appendAudioBase64 st c
      let p2 := appendMany p1.1 rest
      (p2.1, p1.2 ++ p2.2)

/-- JavaScript x || null on an optional string field (empty string becomes
null), as used when building database rows. -/
def jsOrNull (o : Option String) : Option String :=
  if jsStrTruthy o then o else none

/-- Arguments of the purchaseTickets tool that drive its control flow (card
fields feed only the Stripe call, which is the StripeOutcome parameter). -/
structure PurchaseArgs where
  ticketType : TicketType
  quantity : Int
  customerName : String
  customerEmail : String
  customerPhone : String
  eventId : Option String
  deriving DecidableEq, Repr

/-- Result shape of the purchaseTickets tool. -/
structure PurchaseToolRes where
  ok : Bool
  confirmationCode : Option String
  smsSent : Bool
  message : Option String
  error : Option String
  deriving DecidableEq, Repr

/-- Console log lines produced by the catch handlers attached to the two
detached side-effect promises (SMS confirmation and Slack notification).
These are the only consumers of the side-effect outcomes. -/
def sideEffectLogs (smsOutcome slackOutcome : Except String Unit)
    (smsLabel slackLabel : String) : List String :=
  (match smsOutcome with
   | .ok _ => []
   | .error e => [smsLabel ++ e]) ++
  (match slackOutcome with
   | .ok _ => []
   | .error e => [slackLabel ++ e])

/-- tools.purchaseTickets: resolves the event id (falsy id falls back to the
next active future event, failing with the fixed error when none exists),
runs processVoicePayment, and on success fires the SMS confirmation and the
Slack notification as detached promises whose failures are only logged,
returning the success result without awaiting them; on payment failure the
payment error is passed through.  Returns the tool result, the updated
event table, and the side-effect failure log lines. -/
def purchaseTickets (db : List Event) (now : Int) (args : PurchaseArgs)
    (confirmationCode : String) (stripe : StripeOutcome)
    (smsOutcome slackOutcome : Except String Unit) :
    PurchaseToolRes × List Event × List String :=
  match (if jsStrTruthy args.eventId then args.eventId
         else (firstUpcoming db now).map (·.id)) with
  | none => (⟨false, none, false, none, some "No upcoming events available"⟩, db, [])
  | some eid =>
      let paid := processVoicePayment db eid args.ticketType args.quantity
        confirmationCode stripe
      if paid.1.success then
        (⟨true, paid.1.confirmationCode, true,
          some ("Your purchase is complete! Your confirmation code is "
                ++ (paid.1.confirmationCode.getD "undefined")
                ++ ". I've sent a text message to your phone with all the details. You'll also receive a confirmation email at "
                ++ args.customerEmail ++ "."),
          none⟩,
         paid.2,
         sideEffectLogs smsOutcome slackOutcome "SMS send failed: "
           "Slack notification failed: ")
      else
        (⟨false, none, false, none, paid.1.error⟩, paid.2, [])

/-- Arguments of the captureSponsorInquiry tool. -/
structure SponsorArgs where
  contactName : String
  companyName : Option String
  phone : String
  email : Option String
  interestedLevel : Option String
  notes : Option String
  deriving DecidableEq, Repr

/-- The SponsorInquiry row the tool stores. -/
structure SponsorInquiryRow where
  contactName : String
  companyName : Option String
  phone : String
  email : Option String
  interestedTier : Option String
  notes : Option String
  deriving DecidableEq, Repr

/-- Result shape of the captureSponsorInquiry tool. -/
structure SponsorToolRes where
  ok : Bool
  smsSent : Bool
  message : String
  deriving DecidableEq, Repr

/-- tools.captureSponsorInquiry: stores the inquiry row, fires the follow-up
SMS and the Slack notification as detached promises whose failures are only
logged, and returns the fixed success result without awaiting them. -/
def captureSponsorInquiry (args : SponsorArgs)
    (smsOutcome slackOutcome : Except String Unit) :
    SponsorToolRes × SponsorInquiryRow × List String :=
  (⟨true, true,
    "Thank you for your interest in sponsoring The Soup Cookoff! I've sent you a text message with more information. Our team will contact you within 48 hours."⟩,
   ⟨args.contactName, jsOrNull args.companyName, args.phone, jsOrNull args.email,
    jsOrNull args.interestedLevel, jsOrNull args.notes⟩,
   sideEffectLogs smsOutcome slackOutcome "Sponsor SMS send failed: "
     "Slack notification failed: ")

/-- A sold-out event row: GA capacity 500 with 500 already sold. -/
def evFull : Event :=
  ⟨"e1", "Carlisle Soup Cook Off", 100, "Carlisle Expo Center", none,
   15, 20, 35, 40, 500, 100, 500, 0, true⟩

/-- An oversold event row: GA capacity 500 with 501 sold. -/
def evOversold : Event :=
  ⟨"e1", "Harrisburg Soup Cook Off", 200, "Best Western Premier", none,
   15, 20, 35, 40, 500, 100, 501, 0, true⟩

/-- C1: the voice purchase path violates the claimed availability guard and
the sold-at-most-capacity invariant.  On a sold-out event (gaSold = 500 of
gaCapacity 500) a GA purchase of quantity 1 whose Stripe charge succeeds is
reported successful and increments gaSold to 501; the remaining-count
rejection exists only on the web checkout path (createTicketPaymentIntent),
shown for contrast on the same state. -/
theorem processVoicePayment_oversells_C1 :
    (processVoicePayment [evFull] "e1" TicketType.GA 1 "SCO-AAAA1111"
        StripeOutcome.succeeded).1
      = ⟨true, some "SCO-AAAA1111", none⟩ ∧
    ((processVoicePayment [evFull] "e1" TicketType.GA 1 "SCO-AAAA1111"
        StripeOutcome.succeeded).2.map Event.gaSold) = [501] ∧
    evFull.gaCapacity = 500 ∧
    createTicketPaymentIntent [evFull] "e1" TicketType.GA 1 "SCO-AAAA1111"
        StripeOutcome.succeeded
      = ⟨false, none, some "Only 0 GA tickets remaining"⟩ := by
  refine ⟨rfl, ?_, rfl, ?_⟩ <;> decide

/-- C3 counterexample: with gaSold = 501 of gaCapacity 500 the availability
lookup returns gaAvailable = -1, a negative value, contradicting the claim
that the lookup never returns negative availability in all sold-counter
states. -/
theorem getTicketPrices_negative_available_cex :
    ((getTicketPrices [evOversold] 0 (some "e1")).map TicketPrices.gaAvailable)
      = some (-1) ∧ ((-1 : Int) < 0) := by
  refine ⟨?_, by decide⟩ ; decide

/-- C3 amended: the lookup returns available = capacity - sold per tier as a
plain integer difference (so it is negative exactly when sold exceeds
capacity, and non-negative whenever sold is at most capacity), and the
getTicketPricing tool passes both availability values through unchanged. -/
theorem getTicketPrices_available_spec (db : List Event) (now : Int)
    (eventId : Option String) (p : TicketPrices)
    (h : getTicketPrices db now eventId = some p) :
    p.gaAvailable = p.event.gaCapacity - p.event.gaSold ∧
    p.vipAvailable = p.event.vipCapacity - p.event.vipSold ∧
    (p.event.gaSold ≤ p.event.gaCapacity → 0 ≤ p.gaAvailable) ∧
    (p.event.vipSold ≤ p.event.vipCapacity → 0 ≤ p.vipAvailable) ∧
    getTicketPricing db now eventId
      = ⟨true, none, some p.gaAvailable, some p.vipAvailable⟩ := by
  have hres : getTicketPricing db now eventId
      = ⟨true, none, some p.gaAvailable, some p.vipAvailable⟩ := by
    simp only [getTicketPricing, h]
  revert h
  unfold getTicketPrices
  cases hE : pricingEvent db now eventId with
  | none => intro h; exact absurd h (by simp)
  | some e =>
      intro h
      have hp : p = ⟨e, e.gaPriceOnline, e.gaPriceGate, e.vipPriceOnline,
          e.vipPriceGate, e.gaCapacity - e.gaSold, e.vipCapacity - e.vipSold⟩ :=
        (Option.some_injective _ h).symm
      subst hp
      refine ⟨rfl, rfl, ?_, ?_, hres⟩
      · intro hle; simpa using Int.sub_nonneg.mpr hle
      · intro hle; simpa using Int.sub_nonneg.mpr hle

/-- The concrete prices record for evFull. -/
def pricesFull : TicketPrices := ⟨evFull, 15, 20, 35, 40, 0, 100⟩

/-- Witness for the C3 amended theorem at a concrete lookup. -/
theorem getTicketPrices_available_spec_witness :
    (getTicketPrices [evFull] 0 (some "e1") = some pricesFull) ∧
    (pricesFull.gaAvailable = pricesFull.event.gaCapacity - pricesFull.event.gaSold ∧
     pricesFull.vipAvailable = pricesFull.event.vipCapacity - pricesFull.event.vipSold ∧
     (pricesFull.event.gaSold ≤ pricesFull.event.gaCapacity → 0 ≤ pricesFull.gaAvailable) ∧
     (pricesFull.event.vipSold ≤ pricesFull.event.vipCapacity → 0 ≤ pricesFull.vipAvailable) ∧
     getTicketPricing [evFull] 0 (some "e1")
       = ⟨true, none, some pricesFull.gaAvailable, some pricesFull.vipAvailable⟩) :=
  ⟨by decide, getTicketPrices_available_spec [evFull] 0 (some "e1") pricesFull (by decide)⟩

/-- An active future event used as concrete data. -/
def evAlpha : Event :=
  ⟨"a1", "Alpha Cookoff", 10, "Carlisle", none,
   15, 20, 35, 40, 500, 100, 0, 0, true⟩

/-- C7 counterexample: an invocation carrying an eventName filter that
matches nothing returns ok false with the no-events message even though an
active, future-dated event exists (the unfiltered selection is nonempty), so
the returned events are not exactly the active future-dated events for
every invocation. -/
theorem getEventInfo_name_filter_cex :
    (getEventInfo [evAlpha] 0 (some "Beta")).ok = false ∧
    (getEventInfo [evAlpha] 0 (some "Beta")).message
      = some "No upcoming events found" ∧
    (getEventInfo [evAlpha] 0 (some "Beta")).events = [] ∧
    upcomingSelection [evAlpha] 0 none = [evAlpha] := by
  refine ⟨?_, ?_, ?_, ?_⟩ <;> decide

/-- C7 amended: the events returned are exactly the first three, in
ascending date order, of the events that are active, not past-dated, and
match the optional name filter; at most three are returned; when that
selection is empty the result is ok false with the fixed message and no
error, and otherwise ok true with the selection. -/
theorem getEventInfo_spec (db : List Event) (now : Int)
    (eventName : Option String) :
    List.Sorted dateLE (upcomingSelection db now eventName) ∧
    (∀ e ∈ upcomingSelection db now eventName,
       e.active = true ∧ now ≤ e.date ∧ upcomingFilter now eventName e = true) ∧
    (upcomingSelection db now eventName).length ≤ 3 ∧
    (upcomingSelection db now eventName = [] →
       getEventInfo db now eventName
         = ⟨false, some "No upcoming events found", [], none⟩) ∧
    (upcomingSelection db now eventName ≠ [] →
       getEventInfo db now eventName
         = ⟨true, none, (upcomingSelection db now eventName).map summarize,
            ((upcomingSelection db now eventName).map summarize).head?⟩) := by
  refine ⟨?_, ?_, ?_, ?_, ?_⟩
  · exact List.Pairwise.sublist (List.take_sublist 3 _)
      (List.sorted_insertionSort dateLE _)
  · intro e he
    have h1 : e ∈ sortByDate (db.filter (upcomingFilter now eventName)) :=
      List.mem_of_mem_take he
    have h2 : e ∈ db.filter (upcomingFilter now eventName) :=
      ((List.perm_insertionSort dateLE _).mem_iff).mp h1
    have h3 := (List.mem_filter.mp h2).2
    have had : e.active = true ∧ now ≤ e.date := by
      revert h3
      simp only [upcomingFilter, Bool.and_eq_true, decide_eq_true_eq]
      tauto
    exact ⟨had.1, had.2, h3⟩
  · exact List.length_take_le 3 _
  · intro h
    simp [getEventInfo, h]
  · intro h
    have hlen : ¬ (upcomingSelection db now eventName).length = 0 := by
      simpa [List.length_eq_zero] using h
    simp [getEventInfo, hlen]

/-- Witness for the C7 amended theorem: a nonempty and an empty selection. -/
theorem getEventInfo_spec_witness :
    (upcomingSelection [evAlpha] 0 none ≠ [] ∧
     getEventInfo [evAlpha] 0 none
       = ⟨true, none, (upcomingSelection [evAlpha] 0 none).map summarize,
          ((upcomingSelection [evAlpha] 0 none).map summarize).head?⟩) ∧
    (upcomingSelection [evAlpha] 1000 none = [] ∧
     getEventInfo [evAlpha] 1000 none
       = ⟨false, some "No upcoming events found", [], none⟩) :=
  ⟨⟨by decide, (getEventInfo_spec [evAlpha] 0 none).2.2.2.2 (by decide)⟩,
   ⟨by decide, (getEventInfo_spec [evAlpha] 1000 none).2.2.2.1 (by decide)⟩⟩

/-- C2: gating of answerQuestion when a top retrieval candidate exists.
Strictly below the threshold the result is not ok, is flagged low
confidence, carries exactly the action derived from the configured
lowConfidenceAction (defaulting to ask_clarify, i.e. CLARIFY), is not
confidence-approved and has no asserted answer field; at or above the
threshold the result is ok, carries the passage, the nonempty source list
and the confidence-approved flag. -/
theorem answerQuestion_confidence_gate_C2 (cfg : Option BusinessConfig)
    (res : KBResult) (top : KBSource) (h : res.sources.head? = some top) :
    (top.score < cfgMinConfidence cfg →
       (answerQuestion cfg res).ok = false ∧
       (answerQuestion cfg res).lowConfidence = true ∧
       (answerQuestion cfg res).action = some (gateActionFor (cfgLowAction cfg)) ∧
       (answerQuestion cfg res).confidenceOk = false ∧
       (answerQuestion cfg res).context = none) ∧
    (cfgMinConfidence cfg ≤ top.score →
       (answerQuestion cfg res).ok = true ∧
       (answerQuestion cfg res).context = some res.context ∧
       (answerQuestion cfg res).sources = res.sources ∧
       res.sources ≠ [] ∧
       (answerQuestion cfg res).confidenceOk = true) := by
  have htop : ((res.sources.head?).map (·.score)).getD 0 = top.score := by
    rw [h]; rfl
  have hne : res.sources ≠ [] := by
    intro hnil
    rw [hnil] at h
    exact Option.noConfusion h
  constructor
  · intro hlt
    by_cases h1 : cfgLowAction cfg = "transfer"
    · simp [answerQuestion, htop, hlt, h1, gateActionFor]
    · by_cases h2 : cfgLowAction cfg = "voicemail"
      · simp [answerQuestion, htop, hlt, h1, h2, gateActionFor]
      · simp [answerQuestion, htop, hlt, h1, h2, gateActionFor]
  · intro hge
    have hnlt : ¬ (((res.sources.head?).map (·.score)).getD 0 < cfgMinConfidence cfg) := by
      rw [htop]; exact not_lt.mpr hge
    simp [answerQuestion, hnlt, hne]

/-- A low-scoring retrieval result. -/
def kbLow : KBResult := ⟨"Low context", [⟨"faq-weather", 0.1⟩]⟩

/-- A high-scoring retrieval result. -/
def kbHigh : KBResult := ⟨"High context", [⟨"faq-events", 0.91⟩]⟩

/-- Witness for C2: with no config row (threshold 0.55, action ask_clarify)
a 0.1-scored candidate is gated to CLARIFY with no asserted answer and a
0.91-scored candidate is answered with the passage and approval flag. -/
theorem answerQuestion_confidence_gate_C2_witness :
    (kbLow.sources.head? = some ⟨"faq-weather", 0.1⟩ ∧
     (0.1 : ℚ) < cfgMinConfidence none ∧
     (answerQuestion none kbLow).action = some GateAction.CLARIFY ∧
     (answerQuestion none kbLow).context = none) ∧
    (kbHigh.sources.head? = some ⟨"faq-events", 0.91⟩ ∧
     cfgMinConfidence none ≤ (0.91 : ℚ) ∧
     (answerQuestion none kbHigh).context = some "High context" ∧
     (answerQuestion none kbHigh).confidenceOk = true) := by
  have h1 : (0.1 : ℚ) < cfgMinConfidence none := by
    show (0.1 : ℚ) < 0.55
    norm_num
  have h2 : cfgMinConfidence none ≤ (0.91 : ℚ) := by
    show (0.55 : ℚ) ≤ 0.91
    norm_num
  have hlow := (answerQuestion_confidence_gate_C2 none kbLow ⟨"faq-weather", 0.1⟩ rfl).1 h1
  have hhigh := (answerQuestion_confidence_gate_C2 none kbHigh ⟨"faq-events", 0.91⟩ rfl).2 h2
  exact ⟨⟨rfl, h1, hlow.2.2.1, hlow.2.2.2.2⟩, ⟨rfl, h2, hhigh.2.1, hhigh.2.2.2.2⟩⟩

/-- C10: with an empty retrieval candidate list the top confidence defaults
to 0, so for any positive threshold (in particular the 0.55 default used
when no BusinessConfig row exists) the result is gated: not ok, low
confidence, carrying the configured action, never confidence-approved. -/
theorem answerQuestion_empty_retrieval_C10 (cfg : Option BusinessConfig)
    (res : KBResult) (hs : res.sources = [])
    (hpos : 0 < cfgMinConfidence cfg) :
    ((res.sources.head?).map (·.score)).getD 0 = 0 ∧
    (answerQuestion cfg res).ok = false ∧
    (answerQuestion cfg res).lowConfidence = true ∧
    (answerQuestion cfg res).action = some (gateActionFor (cfgLowAction cfg)) ∧
    (answerQuestion cfg res).confidenceOk = false ∧
    (answerQuestion cfg res).context = none := by
  have htop : ((res.sources.head?).map (·.score)).getD 0 = 0 := by
    rw [hs]; rfl
  refine ⟨htop, ?_⟩
  by_cases h1 : cfgLowAction cfg = "transfer"
  · simp [answerQuestion, htop, hpos, h1, gateActionFor]
  · by_cases h2 : cfgLowAction cfg = "voicemail"
    · simp [answerQuestion, htop, hpos, h1, h2, gateActionFor]
    · simp [answerQuestion, htop, hpos, h1, h2, gateActionFor]

/-- A retrieval result with no candidates. -/
def kbEmpty : KBResult := ⟨"", []⟩

/-- Witness for C10 at the defaulted configuration (no BusinessConfig row,
threshold 0.55, action ask_clarify). -/
theorem answerQuestion_empty_retrieval_C10_witness :
    (kbEmpty.sources = [] ∧ 0 < cfgMinConfidence none) ∧
    ((answerQuestion none kbEmpty).ok = false ∧
     (answerQuestion none kbEmpty).action = some GateAction.CLARIFY ∧
     (answerQuestion none kbEmpty).confidenceOk = false) := by
  have hpos : 0 < cfgMinConfidence none := by
    show (0 : ℚ) < 0.55
    norm_num
  have h := answerQuestion_empty_retrieval_C10 none kbEmpty rfl hpos
  exact ⟨⟨rfl, hpos⟩, ⟨h.2.1, h.2.2.2.1, h.2.2.2.2.1⟩⟩

/-- C5: for every inbound tool call event, a string argument payload that
fails to parse resolves to the empty object (safeParseJson never throws); a
throw from the dispatched handler is caught and becomes the ok false error
output; and the client builds exactly one tool.output reply tagged with the
original correlation token (tool_call_id falling back to id), which is
emitted as the single sent message whenever the socket is open. -/
theorem clientToolCall_reply_C5 (parse : String → Option Json)
    (stringify : Json → String)
    (handler : Option (ToolCallEvent → Json → Except JsError Json))
    (call : ToolCallEvent) :
    (∀ s, call.arguments = some (Sum.inl s) → parse s = none →
       resolveArgs parse call.arguments = Json.obj []) ∧
    (∀ h e, handler = some h →
       h call (resolveArgs parse call.arguments) = Except.error e →
       clientToolOutput handler parse call = jsonErr (jsErrMsg e)) ∧
    (clientHandleToolCall parse stringify handler call
       = RealtimeMsg.toolOutput (jsOrOpt call.tool_call_id call.id)
           (stringify (clientToolOutput handler parse call))) ∧
    (∀ st : RTClientState, st.ws = some wsOPEN →
       clientHandleToolCallEmit st parse stringify handler call
         = [clientHandleToolCall parse stringify handler call]) := by
  refine ⟨?_, ?_, rfl, ?_⟩
  · intro s hs hp
    rw [hs]
    unfold resolveArgs safeParseJson
    by_cases hse : s = "" <;> simp [hse, hp]
  · intro h e hh herr
    subst hh
    simp [clientToolOutput, herr]
  · intro st hws
    simp [clientHandleToolCallEmit, rtSend, hws]

/-- A parse function that always fails. -/
def parseNone : String → Option Json := fun _ => none

/-- A serializer constant enough for witnesses. -/
def stringifyConst : Json → String := fun _ => "serialized"

/-- A handler that always throws a boom error. -/
def throwingHandler : ToolCallEvent → Json → Except JsError Json :=
  fun _ _ => Except.error ⟨some "boom", "Error: boom"⟩

/-- A tool call event with a malformed string payload and both correlation
fields set. -/
def callEx : ToolCallEvent :=
  ⟨some "id1", some "purchaseTickets", none, some (Sum.inl "not json"), some "tc1"⟩

/-- A connected client state over an open socket. -/
def stOpen : RTClientState := ⟨true, 0, some wsOPEN⟩

/-- Witness for C5 at a concrete malformed call with a throwing handler. -/
theorem clientToolCall_reply_C5_witness :
    (callEx.arguments = some (Sum.inl "not json") ∧ parseNone "not json" = none ∧
     resolveArgs parseNone callEx.arguments = Json.obj []) ∧
    (throwingHandler callEx (resolveArgs parseNone callEx.arguments)
       = Except.error ⟨some "boom", "Error: boom"⟩ ∧
     clientToolOutput (some throwingHandler) parseNone callEx
       = jsonErr (jsErrMsg ⟨some "boom", "Error: boom"⟩)) ∧
    (stOpen.ws = some wsOPEN ∧
     clientHandleToolCallEmit stOpen parseNone stringifyConst
         (some throwingHandler) callEx
       = [clientHandleToolCall parseNone stringifyConst
            (some throwingHandler) callEx]) := by
  have h := clientToolCall_reply_C5 parseNone stringifyConst
    (some throwingHandler) callEx
  exact ⟨⟨rfl, rfl, h.1 "not json" rfl rfl⟩,
         ⟨rfl, h.2.1 throwingHandler ⟨some "boom", "Error: boom"⟩ rfl rfl⟩,
         ⟨rfl, h.2.2.2 stOpen rfl⟩⟩

/-- Accumulation of the pending byte counter over a connected sequence of
appends: connectivity and the socket are unchanged and the counter grows by
the sum of the decoded chunk lengths. -/
lemma appendMany_accumulates (chunks : List String) :
    ∀ st : RTClientState, st.connected = true →
      (appendMany st chunks).1.pendingBytes
          = st.pendingBytes + (chunks.map base64ByteLength).sum ∧
      (appendMany st chunks).1.connected = true ∧
      (appendMany st chunks).1.ws = st.ws := by
  induction chunks with
  | nil => intro st h; simp [appendMany, h]
  | cons c rest ih =>
      intro st h
      have hnot : ¬ st.connected = false := by simp [h]
      have step := ih { st with pendingBytes := st.pendingBytes + base64ByteLength c } h
      simp only [appendMany, appendAudioBase64, if_neg hnot]
      refine ⟨?_, step.2.1, step.2.2⟩
      rw [step.1]
      simp [List.sum_cons, Nat.add_assoc]

/-- C8: on a connected client the pending byte counter accumulates the
decoded base64 byte length of every appended chunk; once it reaches or
crosses the threshold the auto-flush check (over an open socket) sends the
input_audio_buffer.commit followed by response.create and resets the counter
to 0; strictly below the threshold it sends nothing and changes nothing. -/
theorem audioBuffer_autoflush_C8 (st : RTClientState) (chunks : List String)
    (hconn : st.connected = true) :
    ((appendMany st chunks).1.pendingBytes
       = st.pendingBytes + (chunks.map base64ByteLength).sum) ∧
    (∀ thresholdBytes, thresholdBytes ≤ st.pendingBytes → st.ws = some wsOPEN →
       maybeAutoFlush st thresholdBytes
         = ({ st with pendingBytes := 0 },
            [RealtimeMsg.inputAudioCommit,
             RealtimeMsg.responseCreate ["text", "audio"]])) ∧
    (∀ thresholdBytes, st.pendingBytes < thresholdBytes →
       maybeAutoFlush st thresholdBytes = (st, [])) := by
  refine ⟨(appendMany_accumulates chunks st hconn).1, ?_, ?_⟩
  · intro th hth hws
    have hnot : ¬ st.connected = false := by simp [hconn]
    simp [maybeAutoFlush, commitAndRespond, rtSend, hth, hws, hnot]
  · intro th hth
    simp [maybeAutoFlush, not_le.mpr hth]

/-- A connected state just below the default threshold. -/
def stBuf : RTClientState := ⟨true, 31998, some wsOPEN⟩

/-- A connected state exactly at the default threshold. -/
def stReady : RTClientState := ⟨true, 32000, some wsOPEN⟩

/-- Witness for C8: accumulation over two concrete chunks (3 and 1 decoded
bytes), a flush at the default 32000 threshold, and a no-op below it. -/
theorem audioBuffer_autoflush_C8_witness :
    (stBuf.connected = true ∧
     (appendMany stBuf ["QUJD", "RQ=="]).1.pendingBytes
       = stBuf.pendingBytes + (["QUJD", "RQ=="].map base64ByteLength).sum ∧
     stBuf.pendingBytes + (["QUJD", "RQ=="].map base64ByteLength).sum = 32002) ∧
    (32000 ≤ stReady.pendingBytes ∧ stReady.ws = some wsOPEN ∧
     maybeAutoFlush stReady 32000
       = ({ stReady with pendingBytes := 0 },
          [RealtimeMsg.inputAudioCommit,
           RealtimeMsg.responseCreate ["text", "audio"]])) ∧
    (stBuf.pendingBytes < 32000 ∧ maybeAutoFlush stBuf 32000 = (stBuf, [])) := by
  have hbuf := audioBuffer_autoflush_C8 stBuf ["QUJD", "RQ=="] rfl
  have hready := audioBuffer_autoflush_C8 stReady [] rfl
  exact ⟨⟨rfl, hbuf.1, by decide⟩,
         ⟨by decide, rfl, hready.2.1 32000 (by decide) rfl⟩,
         ⟨by decide, hbuf.2.2 32000 (by decide)⟩⟩

/-- C9: every outbound send on the model session client is discarded,
without raising any error, whenever the socket is absent or its readyState
is not OPEN; after close the connected flag is cleared, every send is
discarded, and in particular the tool.output reply of a late tool result is
never emitted into the closed session. -/
theorem closedSession_sends_discarded_C9 (st : RTClientState)
    (msg : RealtimeMsg) (parse : String → Option Json)
    (stringify : Json → String)
    (handler : Option (ToolCallEvent → Json → Except JsError Json))
    (call : ToolCallEvent) :
    (st.ws = none → rtSend st msg = []) ∧
    (∀ r, st.ws = some r → r ≠ wsOPEN → rtSend st msg = []) ∧
    ((closeClient st).connected = false) ∧
    (rtSend (closeClient st) msg = []) ∧
    (clientHandleToolCallEmit (closeClient st) parse stringify handler call
       = []) := by
  refine ⟨?_, ?_, rfl, ?_, ?_⟩
  · intro h; simp [rtSend, h]
  · intro r h hne; simp [rtSend, h, hne]
  · cases hws : st.ws <;> simp [closeClient, rtSend, hws, wsCLOSING, wsOPEN]
  · cases hws : st.ws <;>
      simp [clientHandleToolCallEmit, closeClient, rtSend, hws, wsCLOSING, wsOPEN]

/-- A client with no socket object. -/
def stNoWs : RTClientState := ⟨false, 0, none⟩

/-- A client over a socket in readyState CLOSING. -/
def stClosing : RTClientState := ⟨false, 0, some wsCLOSING⟩

/-- Witness for C9: discarded sends with no socket, with a closing socket,
and for the tool.output reply after close of an open client. -/
theorem closedSession_sends_discarded_C9_witness :
    (stNoWs.ws = none ∧ rtSend stNoWs RealtimeMsg.inputAudioCommit = []) ∧
    (stClosing.ws = some wsCLOSING ∧ wsCLOSING ≠ wsOPEN ∧
     rtSend stClosing RealtimeMsg.sessionUpdate = []) ∧
    ((closeClient stOpen).connected = false ∧
     clientHandleToolCallEmit (closeClient stOpen) parseNone stringifyConst
         (some throwingHandler) callEx = []) := by
  have h1 := closedSession_sends_discarded_C9 stNoWs
    RealtimeMsg.inputAudioCommit parseNone stringifyConst none callEx
  have h2 := closedSession_sends_discarded_C9 stClosing
    RealtimeMsg.sessionUpdate parseNone stringifyConst none callEx
  have h3 := closedSession_sends_discarded_C9 stOpen
    RealtimeMsg.sessionUpdate parseNone stringifyConst (some throwingHandler) callEx
  exact ⟨⟨rfl, h1.1 rfl⟩,
         ⟨rfl, by decide, h2.2.1 wsCLOSING rfl (by decide)⟩,
         ⟨h3.2.2.1, h3.2.2.2.2⟩⟩

/-- C6: the SMS confirmation and the Slack notification fired by a
successful purchase, and by a captured sponsor inquiry, are detached: for
any pair of outcomes (success, failure or rejection) of those side effects
the returned tool result and the updated event table are identical — in
particular a side-effect failure never turns a successful result into a
failure — and the sponsor inquiry result is the fixed ok true reply. -/
theorem sideEffects_fire_and_forget_C6 (db : List Event) (now : Int)
    (args : PurchaseArgs) (confirmationCode : String) (stripe : StripeOutcome)
    (o1 o2 o3 o4 : Except String Unit) (sargs : SponsorArgs) :
    ((purchaseTickets db now args confirmationCode stripe o1 o2).1
       = (purchaseTickets db now args confirmationCode stripe o3 o4).1) ∧
    ((purchaseTickets db now args confirmationCode stripe o1 o2).2.1
       = (purchaseTickets db now args confirmationCode stripe o3 o4).2.1) ∧
    ((captureSponsorInquiry sargs o1 o2).1
       = (captureSponsorInquiry sargs o3 o4).1) ∧
    ((captureSponsorInquiry sargs o1 o2).1.ok = true) := by
  refine ⟨?_, ?_, rfl, rfl⟩ <;>
    · simp only [purchaseTickets]
      split
      · rfl
      · split <;> rfl
